import Mathlib

/-!
Shallow embedding of the voice-activity-detection wrapper hook of this
repository (the `useVAD` hook). The hook wires callbacks of an external
detector (speech-start, speech-end, misfire) to consumer notifications
(`onSpeechStart`, `onSpeechEnd`, `onError`) and two observable flags
(`isVADActive`, `isSpeaking`), debouncing the speech end with a deferred
timer (`setTimeout` with delay `VAD_END_DELAY`) and suppressing segments
shorter than `VAD_MIN_SPEECH_DURATION`.

Times are naturals (milliseconds, the value of `Date.now()`). A scheduled
timer is represented by its fire time. The hook stores at most one timer
handle in `speechEndTimeoutRef`, but the underlying runtime keeps every
scheduled, uncanceled, unfired timer alive, so the state also carries the
multiset of outstanding timers as a sorted list `pendingTimers`:
`clearTimeout` removes only the timer currently held by the ref.
-/

/-- Probability threshold for speech start (`VAD_SPEECH_START_THRESHOLD`).
Passed to the external detector; not used by the wrapper logic itself. -/
def VAD_SPEECH_START_THRESHOLD : Rat := 6/10

/-- Probability threshold for speech end (`VAD_SPEECH_END_THRESHOLD`).
Passed to the external detector; not used by the wrapper logic itself. -/
def VAD_SPEECH_END_THRESHOLD : Rat := 5/10

/-- Minimum speech duration in ms to trigger (`VAD_MIN_SPEECH_DURATION`). -/
def VAD_MIN_SPEECH_DURATION : Nat := 300

/-- Delay in ms after speech ends before the consumer callback fires
(`VAD_END_DELAY`). -/
def VAD_END_DELAY : Nat := 1500

/-- A consumer-visible notification. The hook exposes exactly three
callbacks to the consumer: `onSpeechStart()`, `onSpeechEnd()` and
`onError(message)`. The consumer speech-end callback is declared
`() => void` in `UseVADOptions`, and the hook invokes it with no
arguments, so its audio payload is modelled as `Option (List Int)` and is
always `none`; the audio the detector hands to the wrapper is dropped. -/
inductive Out where
  | speechStart : Out
  | speechEnd : Option (List Int) → Out
  | error : String → Out
deriving DecidableEq, Repr

/-- The mutable state of one `useVAD` hook instance.

`isVADActive` and `isSpeaking` are the two React state flags;
`hasInstance` records whether `vadInstanceRef.current` is non-null;
`speechStartTime` is `speechStartTimeRef.current` (ms timestamp or null);
`speechEndTimeout` is `speechEndTimeoutRef.current`, the fire time of the
timer handle currently held by the ref (or null); `pendingTimers` lists
the fire times of every timer that has been scheduled with `setTimeout`
and neither canceled nor fired yet, in ascending order. -/
structure VADState where
  isVADActive : Bool
  isSpeaking : Bool
  hasInstance : Bool
  speechStartTime : Option Nat
  speechEndTimeout : Option Nat
  pendingTimers : List Nat
deriving DecidableEq, Repr

/-- The initial state of the hook: inactive, not speaking, no detector
instance, no recorded start time, no timer. -/
def initialState : VADState :=
  { isVADActive := false
    isSpeaking := false
    hasInstance := false
    speechStartTime := none
    speechEndTimeout := none
    pendingTimers := [] }

/-- `clearTimeout(speechEndTimeoutRef.current)` followed by
`speechEndTimeoutRef.current = null`: removes the ref-held timer from the
outstanding timers and clears the ref. A no-op when the ref is null. -/
def clearEndTimeout (s : VADState) : VADState :=
  match s.speechEndTimeout with
  | some ft =>
      { s with pendingTimers := s.pendingTimers.erase ft, speechEndTimeout := none }
  | none => s

/-- The detector speech-start callback (`onSpeechStart` given to MicVAD):
records `speechStartTime = Date.now()`, clears any pending end timeout,
sets the speaking flag, and invokes the consumer speech-start callback. -/
def onSpeechStart (t : Nat) (s : VADState) : VADState × List Out :=
  let s1 := clearEndTimeout { s with speechStartTime := some t }
  ({ s1 with isSpeaking := true }, [Out.speechStart])

/-- The speech duration the wrapper computes on a detector speech-end:
`Date.now() - speechStartTimeRef.current` when a start time is recorded,
otherwise `0`. -/
def speechDuration (t : Nat) (s : VADState) : Nat :=
  match s.speechStartTime with
  | some t0 => t - t0
  | none => 0

/-- The detector speech-end callback (`onSpeechEnd` given to MicVAD),
receiving the segment audio from the detector. If the computed duration
is below `VAD_MIN_SPEECH_DURATION` it only resets the speaking flag and
returns (no consumer call, no timer). Otherwise it schedules a deferred
callback `VAD_END_DELAY` ms later and stores its handle in the ref,
without canceling a previously stored timer. The audio argument is not
used beyond logging in the source and is dropped here as well. -/
def onSpeechEnd (t : Nat) (_audio : List Int) (s : VADState) : VADState × List Out :=
  if speechDuration t s < VAD_MIN_SPEECH_DURATION then
    ({ s with isSpeaking := false }, [])
  else
    ({ s with
        speechEndTimeout := some (t + VAD_END_DELAY)
        pendingTimers := s.pendingTimers ++ [t + VAD_END_DELAY] }, [])

/-- The detector misfire callback (`onVADMisfire` given to MicVAD): only
resets the speaking flag. -/
def onVADMisfire (s : VADState) : VADState × List Out :=
  ({ s with isSpeaking := false }, [])

/-- The body of the deferred callback scheduled by `onSpeechEnd`, run when
one outstanding timer fires: resets the speaking flag, invokes the
consumer speech-end callback with no arguments, and nulls the timeout ref
(unconditionally, whichever timer the ref currently holds). -/
def fireEndTimer (s : VADState) (rest : List Nat) : VADState × Out :=
  ({ s with pendingTimers := rest, isSpeaking := false, speechEndTimeout := none },
    Out.speechEnd none)

/-- Fires, in ascending order, every outstanding timer whose fire time is
at most `t` (the runtime delivers due timer callbacks before later
events). Fuel-indexed over the number of outstanding timers. -/
def fireDueAux : Nat → Nat → VADState → VADState × List Out
  | 0, _, s => (s, [])
  | n + 1, t, s =>
      match s.pendingTimers with
      | [] => (s, [])
      | ft :: rest =>
          if ft ≤ t then
            let p := fireDueAux n t (fireEndTimer s rest).1
            (p.1, (fireEndTimer s rest).2 :: p.2)
          else (s, [])

/-- Fires every outstanding timer due at or before time `t`. -/
def fireDue (t : Nat) (s : VADState) : VADState × List Out :=
  fireDueAux s.pendingTimers.length t s

/-- Fires every remaining outstanding timer, in order, regardless of
time: what the runtime eventually does when no further event arrives. -/
def flushAllAux : Nat → VADState → VADState × List Out
  | 0, s => (s, [])
  | n + 1, s =>
      match s.pendingTimers with
      | [] => (s, [])
      | _ft :: rest =>
          let p := flushAllAux n (fireEndTimer s rest).1
          (p.1, (fireEndTimer s rest).2 :: p.2)

/-- Fires every remaining outstanding timer in order. -/
def flushAll (s : VADState) : VADState × List Out :=
  flushAllAux s.pendingTimers.length s

/-- Outcome of one attempted detector initialization inside the try
block of `startVAD`: `success` (detector creation and `vad.start()` both
return), `newFails` (`MicVAD.new` throws, so the catch runs before the
instance ref was assigned), `startFails` (`vad.start()` throws after the
source already assigned `vadInstanceRef.current = vad`, so the catch runs
with the instance ref set). -/
inductive InitOutcome where
  | success : InitOutcome
  | newFails : InitOutcome
  | startFails : InitOutcome
deriving DecidableEq, Repr

/-- `startVAD`, with the environment folded in: `supported` is the
`isSupported` flag (browser capability check), `outcome` tells where the
try block gets to. When unsupported, the consumer error callback is
invoked and nothing changes. When a detector instance already exists, the
call returns immediately. On success the instance is stored and the
active flag set. In the catch branch the consumer error callback is
invoked and the active flag cleared; the instance ref keeps whatever the
try block left in it: null when detector creation threw, the new
instance when `vad.start()` threw after the assignment. -/
def startVAD (supported : Bool) (outcome : InitOutcome) (s : VADState) :
    VADState × List Out :=
  if !supported then
    (s, [Out.error "VAD not supported"])
  else if s.hasInstance then
    (s, [])
  else
    match outcome with
    | InitOutcome.success =>
        ({ s with hasInstance := true, isVADActive := true }, [])
    | InitOutcome.newFails =>
        ({ s with isVADActive := false }, [Out.error "Failed to start voice detection"])
    | InitOutcome.startFails =>
        ({ s with hasInstance := true, isVADActive := false },
          [Out.error "Failed to start voice detection"])

/-- `stopVAD`: clears the ref-held timeout, destroys the detector
instance, resets both flags and the recorded start time. It invokes no
consumer callback. -/
def stopVAD (s : VADState) : VADState × List Out :=
  let s1 := clearEndTimeout s
  ({ s1 with
      hasInstance := false
      isVADActive := false
      isSpeaking := false
      speechStartTime := none }, [])

/-- The state after a successful `startVAD` from the initial state. -/
def startedState : VADState :=
  (startVAD true InitOutcome.success initialState).1

/-- An external event driving the hook, stamped with the time (ms) at
which it occurs: a detector callback, a `startVAD` call (with the
outcome of detector creation), or a `stopVAD` call. -/
inductive Ev where
  | detStart : Nat → Ev
  | detEnd : Nat → List Int → Ev
  | detMisfire : Nat → Ev
  | start : Nat → InitOutcome → Ev
  | stop : Nat → Ev
deriving DecidableEq, Repr

/-- The time stamp of an event. -/
def Ev.time : Ev → Nat
  | .detStart t => t
  | .detEnd t _ => t
  | .detMisfire t => t
  | .start t _ => t
  | .stop t => t

/-- Dispatches one event to the corresponding handler. -/
def handle (supported : Bool) : Ev → VADState → VADState × List Out
  | .detStart t, s => onSpeechStart t s
  | .detEnd t audio, s => onSpeechEnd t audio s
  | .detMisfire _, s => onVADMisfire s
  | .start _ ok, s => startVAD supported ok s
  | .stop _, s => stopVAD s

/-- Runs a list of events (times assumed nondecreasing) from a state:
before each event, every timer due by the event time fires; then the
event is handled. Returns the final state and all consumer notifications
in order. -/
def runFrom (supported : Bool) : VADState → List Ev → VADState × List Out
  | s, [] => (s, [])
  | s, e :: rest =>
      let p1 := fireDue e.time s
      let p2 := handle supported e p1.1
      let p3 := runFrom supported p2.1 rest
      (p3.1, p1.2 ++ p2.2 ++ p3.2)

/-- Runs a list of events and then lets every remaining timer fire. -/
def runFlush (supported : Bool) (s : VADState) (evs : List Ev) : VADState × List Out :=
  let p := runFrom supported s evs
  let q := flushAll p.1
  (q.1, p.2 ++ q.2)

/-- The segmenter state of the design document, read off the hook state:
`PendingEnd` when an end-confirmation timer handle is held, otherwise
`Speaking` when the speaking flag is set, otherwise `Idle`. -/
inductive SegState where
  | Idle : SegState
  | Speaking : SegState
  | PendingEnd : SegState
deriving DecidableEq, Repr

/-- Derived segmenter state of a hook state. -/
def segState (s : VADState) : SegState :=
  if s.speechEndTimeout.isSome then SegState.PendingEnd
  else if s.isSpeaking then SegState.Speaking
  else SegState.Idle

/-- C1: when a detector speech-end arrives less than
`VAD_MIN_SPEECH_DURATION` ms after the recorded speech start, the segment
is a misfire: no consumer notification is emitted (in particular no
speech-end, now or from any timer), the speaking flag is reset to false,
and the derived segmenter state is `Idle`. -/
theorem misfire_suppresses_speech_end (s : VADState) (t0 t : Nat) (audio : List Int)
    (hst : s.speechStartTime = some t0) (hto : s.speechEndTimeout = none)
    (hpt : s.pendingTimers = []) (hdur : t - t0 < VAD_MIN_SPEECH_DURATION) :
    (onSpeechEnd t audio s).2 = [] ∧
    (onSpeechEnd t audio s).1.isSpeaking = false ∧
    segState (onSpeechEnd t audio s).1 = SegState.Idle ∧
    (flushAll (onSpeechEnd t audio s).1).2 = [] := by
  have hd : speechDuration t s < VAD_MIN_SPEECH_DURATION := by
    simpa [speechDuration, hst] using hdur
  simp [onSpeechEnd, hd, segState, hto, flushAll, flushAllAux, hpt]

/-- Witness for C1: concrete run, start recorded at 0 ms, detector end at
100 ms. -/
theorem misfire_suppresses_speech_end_witness :
    (onSpeechEnd 100 [7]
        { startedState with isSpeaking := true, speechStartTime := some 0 }).2 = [] ∧
    (onSpeechEnd 100 [7]
        { startedState with isSpeaking := true, speechStartTime := some 0 }).1.isSpeaking = false ∧
    segState (onSpeechEnd 100 [7]
        { startedState with isSpeaking := true, speechStartTime := some 0 }).1 = SegState.Idle ∧
    (flushAll (onSpeechEnd 100 [7]
        { startedState with isSpeaking := true, speechStartTime := some 0 }).1).2 = [] :=
  misfire_suppresses_speech_end _ 0 100 [7] rfl rfl rfl (by decide)

/-- C6: calling `startVAD` while a detector instance exists (in a
supported environment, the only way an instance can have been created) is
a no-op, whatever the outcome of a fresh initialization would have been:
the state is unchanged and no notification, in particular no error, is
emitted. -/
theorem start_when_active_noop (s : VADState) (h : s.hasInstance = true) :
    startVAD true InitOutcome.success s = (s, []) ∧
    startVAD true InitOutcome.newFails s = (s, []) ∧
    startVAD true InitOutcome.startFails s = (s, []) := by
  simp [startVAD, h]

/-- Witness for C6: a started instance. -/
theorem start_when_active_noop_witness :
    startVAD true InitOutcome.success startedState = (startedState, []) ∧
    startVAD true InitOutcome.newFails startedState = (startedState, []) ∧
    startVAD true InitOutcome.startFails startedState = (startedState, []) :=
  start_when_active_noop startedState rfl

/-- C9, counterexample: when the detector fails to start (`vad.start()`
throws after the source assigned the instance ref, an initialization
failure the claim covers), the error is reported and the active flag
cleared, but the hook is not left uninitialized: the instance ref is
still set, so a subsequent `startVAD` returns at the already-active check
as a no-op instead of retrying initialization. -/
theorem start_failure_leaves_instance :
    (startVAD true InitOutcome.startFails initialState).2
      = [Out.error "Failed to start voice detection"] ∧
    (startVAD true InitOutcome.startFails initialState).1.hasInstance = true ∧
    startVAD true InitOutcome.startFails
        (startVAD true InitOutcome.startFails initialState).1
      = ((startVAD true InitOutcome.startFails initialState).1, []) := by decide

/-- C9, amended: every initialization failure is reported through the
consumer error callback (nothing is thrown) and leaves the hook inactive
(active flag false) and in derived state `Idle`: an unsupported
environment emits the unsupported-error and changes nothing, and a throw
inside the try block emits the start-failure error and clears the active
flag. The hook is left with no instance only when detector creation
itself threw; when `vad.start()` threw after the assignment, the instance
ref remains set, so the hook is not fully uninitialized in that case. -/
theorem init_failure_reported_inactive_idle (s : VADState)
    (hin : s.hasInstance = false) (hact : s.isVADActive = false)
    (hsp : s.isSpeaking = false) (hto : s.speechEndTimeout = none) :
    (startVAD false InitOutcome.success s).2 = [Out.error "VAD not supported"] ∧
    (startVAD false InitOutcome.success s).1 = s ∧
    (startVAD false InitOutcome.success s).1.isVADActive = false ∧
    segState (startVAD false InitOutcome.success s).1 = SegState.Idle ∧
    (startVAD true InitOutcome.newFails s).2
      = [Out.error "Failed to start voice detection"] ∧
    (startVAD true InitOutcome.newFails s).1.isVADActive = false ∧
    (startVAD true InitOutcome.newFails s).1.hasInstance = false ∧
    segState (startVAD true InitOutcome.newFails s).1 = SegState.Idle ∧
    (startVAD true InitOutcome.startFails s).2
      = [Out.error "Failed to start voice detection"] ∧
    (startVAD true InitOutcome.startFails s).1.isVADActive = false ∧
    (startVAD true InitOutcome.startFails s).1.hasInstance = true ∧
    segState (startVAD true InitOutcome.startFails s).1 = SegState.Idle := by
  simp [startVAD, hin, hact, segState, hto, hsp]

/-- Witness for the amended C9: failures from the initial state. -/
theorem init_failure_reported_inactive_idle_witness :
    (startVAD false InitOutcome.success initialState).2
      = [Out.error "VAD not supported"] ∧
    (startVAD false InitOutcome.success initialState).1 = initialState ∧
    (startVAD false InitOutcome.success initialState).1.isVADActive = false ∧
    segState (startVAD false InitOutcome.success initialState).1 = SegState.Idle ∧
    (startVAD true InitOutcome.newFails initialState).2
      = [Out.error "Failed to start voice detection"] ∧
    (startVAD true InitOutcome.newFails initialState).1.isVADActive = false ∧
    (startVAD true InitOutcome.newFails initialState).1.hasInstance = false ∧
    segState (startVAD true InitOutcome.newFails initialState).1 = SegState.Idle ∧
    (startVAD true InitOutcome.startFails initialState).2
      = [Out.error "Failed to start voice detection"] ∧
    (startVAD true InitOutcome.startFails initialState).1.isVADActive = false ∧
    (startVAD true InitOutcome.startFails initialState).1.hasInstance = true ∧
    segState (startVAD true InitOutcome.startFails initialState).1 = SegState.Idle :=
  init_failure_reported_inactive_idle initialState rfl rfl rfl rfl

/-- C10: a detector speech-end that arrives while no speech start time is
recorded computes duration 0, which is below the minimum, so it is
suppressed: no consumer notification, no timer scheduled, and the
speaking flag is reset to false. -/
theorem end_without_start_suppressed (s : VADState) (t : Nat) (audio : List Int)
    (h : s.speechStartTime = none) :
    speechDuration t s = 0 ∧
    speechDuration t s < VAD_MIN_SPEECH_DURATION ∧
    (onSpeechEnd t audio s).2 = [] ∧
    (onSpeechEnd t audio s).1.isSpeaking = false ∧
    (onSpeechEnd t audio s).1.speechEndTimeout = s.speechEndTimeout ∧
    (onSpeechEnd t audio s).1.pendingTimers = s.pendingTimers := by
  have hd : speechDuration t s = 0 := by simp [speechDuration, h]
  refine ⟨hd, ?_, ?_⟩
  · simp [hd, VAD_MIN_SPEECH_DURATION]
  · simp [onSpeechEnd, hd, VAD_MIN_SPEECH_DURATION]

/-- Witness for C10: a detector end at 250 ms in the freshly started
state, where no start time is recorded. -/
theorem end_without_start_suppressed_witness :
    speechDuration 250 startedState = 0 ∧
    speechDuration 250 startedState < VAD_MIN_SPEECH_DURATION ∧
    (onSpeechEnd 250 [3] startedState).2 = [] ∧
    (onSpeechEnd 250 [3] startedState).1.isSpeaking = false ∧
    (onSpeechEnd 250 [3] startedState).1.speechEndTimeout = startedState.speechEndTimeout ∧
    (onSpeechEnd 250 [3] startedState).1.pendingTimers = startedState.pendingTimers :=
  end_without_start_suppressed startedState 250 [3] rfl

/-- C2: a detector end at least `VAD_MIN_SPEECH_DURATION` ms after the
speech start stores a pending-end timer due `VAD_END_DELAY` ms later; a
detector speech-start arriving before that timer is due cancels it, no
consumer speech-end is ever emitted for it (also after letting all
remaining timers fire), and the derived state is back to `Speaking`. -/
theorem pending_end_scheduled_and_canceled (t0 t1 t2 : Nat) (audio : List Int)
    (h01 : t0 + VAD_MIN_SPEECH_DURATION ≤ t1) (_h12 : t1 ≤ t2)
    (h2 : t2 < t1 + VAD_END_DELAY) :
    (runFrom true startedState [Ev.detStart t0, Ev.detEnd t1 audio]).1.speechEndTimeout
        = some (t1 + VAD_END_DELAY) ∧
    (runFrom true startedState [Ev.detStart t0, Ev.detEnd t1 audio, Ev.detStart t2]).2
        = [Out.speechStart, Out.speechStart] ∧
    segState (runFrom true startedState
        [Ev.detStart t0, Ev.detEnd t1 audio, Ev.detStart t2]).1 = SegState.Speaking ∧
    (flushAll (runFrom true startedState
        [Ev.detStart t0, Ev.detEnd t1 audio, Ev.detStart t2]).1).2 = [] := by
  have hA : ¬ (t1 - t0 < VAD_MIN_SPEECH_DURATION) := by
    simp only [VAD_MIN_SPEECH_DURATION] at h01 ⊢; omega
  have hB : ¬ (t1 + VAD_END_DELAY ≤ t2) := by omega
  simp [runFrom, handle, Ev.time, fireDue, startedState, startVAD, initialState, fireDueAux,
    onSpeechStart, onSpeechEnd, clearEndTimeout, speechDuration, hA, hB,
    segState, flushAll, flushAllAux, fireEndTimer]

/-- Witness for C2: start at 0 ms, end at 400 ms, restart at 1000 ms,
before the timer due at 1900 ms. -/
theorem pending_end_scheduled_and_canceled_witness :
    (runFrom true startedState [Ev.detStart 0, Ev.detEnd 400 [9]]).1.speechEndTimeout
        = some (400 + VAD_END_DELAY) ∧
    (runFrom true startedState [Ev.detStart 0, Ev.detEnd 400 [9], Ev.detStart 1000]).2
        = [Out.speechStart, Out.speechStart] ∧
    segState (runFrom true startedState
        [Ev.detStart 0, Ev.detEnd 400 [9], Ev.detStart 1000]).1 = SegState.Speaking ∧
    (flushAll (runFrom true startedState
        [Ev.detStart 0, Ev.detEnd 400 [9], Ev.detStart 1000]).1).2 = [] :=
  pending_end_scheduled_and_canceled 0 400 1000 [9] (by decide) (by decide) (by decide)

/-- C3, counterexample: in a completed segment (start at 0 ms, detector
end at 400 ms handing audio frames to the wrapper, timer allowed to
fire), the consumer speech-end notification carries no audio payload; it
is not the detector-collected frames the claim requires. -/
theorem speech_end_payload_missing :
    (runFlush true startedState [Ev.detStart 0, Ev.detEnd 400 [1, 2, 3]]).2
        = [Out.speechStart, Out.speechEnd none] ∧
    Out.speechEnd none ≠ Out.speechEnd (some [1, 2, 3]) := by decide

/-- C3, amended: when the pending-end timer elapses with no intervening
event, the consumer speech-end notification fires exactly once for the
segment, but it carries no audio payload: the hook invokes the consumer
callback with no arguments and drops the audio the detector delivered. -/
theorem speech_end_fires_once_no_payload (t0 t1 : Nat) (audio : List Int)
    (h01 : t0 + VAD_MIN_SPEECH_DURATION ≤ t1) :
    (runFlush true startedState [Ev.detStart t0, Ev.detEnd t1 audio]).2
        = [Out.speechStart, Out.speechEnd none] := by
  have hA : ¬ (t1 - t0 < VAD_MIN_SPEECH_DURATION) := by
    simp only [VAD_MIN_SPEECH_DURATION] at h01 ⊢; omega
  simp [runFlush, runFrom, handle, Ev.time, fireDue, startedState, startVAD, initialState,
    fireDueAux, onSpeechStart, onSpeechEnd, clearEndTimeout, speechDuration, hA,
    flushAll, flushAllAux, fireEndTimer]

/-- Witness for the amended C3: start at 0 ms, end at 300 ms. -/
theorem speech_end_fires_once_no_payload_witness :
    (runFlush true startedState [Ev.detStart 0, Ev.detEnd 300 [4, 4]]).2
        = [Out.speechStart, Out.speechEnd none] :=
  speech_end_fires_once_no_payload 0 300 [4, 4] (by decide)

/-- C4, counterexample: a 100 ms segment (below the minimum duration) is
non-pathological input, yet its consumer speech-start notification is
followed by no terminal notification at all: the consumer interface has
no misfire notification and no speech-end is emitted, so the claimed
exactly-one-terminal-event property fails. -/
theorem short_segment_no_terminal_event :
    (runFlush true startedState [Ev.detStart 0, Ev.detEnd 100 [5]]).2
        = [Out.speechStart] := by decide

/-- C4, amended: a consumer speech-start notification is followed by at
most one terminal consumer notification for the segment: exactly one
speech-end when the segment reaches the minimum duration and the timer is
left to fire, and none at all when it is shorter (the consumer observes
only the speaking flag falling back to false); no misfire notification
exists in the consumer interface. -/
theorem segment_terminal_notification_count (t0 t1 : Nat) (audio : List Int) :
    (runFlush true startedState [Ev.detStart t0, Ev.detEnd t1 audio]).2
        = Out.speechStart ::
          (if t1 - t0 < VAD_MIN_SPEECH_DURATION then [] else [Out.speechEnd none]) ∧
    (runFlush true startedState [Ev.detStart t0, Ev.detEnd t1 audio]).1.isSpeaking
        = false := by
  by_cases h : t1 - t0 < VAD_MIN_SPEECH_DURATION <;>
    simp [runFlush, runFrom, handle, Ev.time, fireDue, startedState, startVAD, initialState,
      fireDueAux, onSpeechStart, onSpeechEnd, clearEndTimeout, speechDuration, h,
      flushAll, flushAllAux, fireEndTimer]

/-- C5, counterexample: two detector speech-ends with no intervening
speech-start (start 0 ms, ends at 400 ms and 500 ms) leave an orphaned
timer the ref no longer holds; a stop at 600 ms cancels only the ref-held
timer, and after stop returns the orphaned timer still fires a consumer
speech-end notification. -/
theorem orphan_timer_fires_after_stop :
    (runFrom true startedState
        [Ev.detStart 0, Ev.detEnd 400 [], Ev.detEnd 500 [], Ev.stop 600]).2
      = [Out.speechStart] ∧
    (flushAll (runFrom true startedState
        [Ev.detStart 0, Ev.detEnd 400 [], Ev.detEnd 500 [], Ev.stop 600]).1).2
      = [Out.speechEnd none] := by decide

/-- C5, amended: `stopVAD` cancels the ref-held pending-end timer and
emits nothing; provided the ref-held timer is the only outstanding one
(which holds whenever detector speech-ends alternate with speech-starts),
no timer remains and no notification can fire after stop returns. -/
theorem stop_silences_tracked_timer (s : VADState)
    (h : s.pendingTimers = s.speechEndTimeout.toList) :
    (stopVAD s).2 = [] ∧
    (stopVAD s).1.speechEndTimeout = none ∧
    (stopVAD s).1.pendingTimers = [] ∧
    (flushAll (stopVAD s).1).2 = [] := by
  cases hto : s.speechEndTimeout <;>
    simp [stopVAD, clearEndTimeout, hto, h, flushAll, flushAllAux]

/-- Witness for the amended C5: stop during a pending end with a single
outstanding timer. -/
theorem stop_silences_tracked_timer_witness :
    (stopVAD (runFrom true startedState [Ev.detStart 0, Ev.detEnd 400 []]).1).2 = [] ∧
    (stopVAD (runFrom true startedState
        [Ev.detStart 0, Ev.detEnd 400 []]).1).1.speechEndTimeout = none ∧
    (stopVAD (runFrom true startedState
        [Ev.detStart 0, Ev.detEnd 400 []]).1).1.pendingTimers = [] ∧
    (flushAll (stopVAD (runFrom true startedState
        [Ev.detStart 0, Ev.detEnd 400 []]).1).1).2 = [] :=
  stop_silences_tracked_timer _ (by decide)

/-- C8, counterexample: after detector speech-ends at 400 ms and 500 ms
(start at 0 ms, no intervening speech-start), two pending-end timers are
outstanding simultaneously, because the speech-end handler overwrites the
ref without canceling the previous timer; letting them fire emits the
consumer speech-end notification twice. -/
theorem double_pending_timers :
    (runFrom true startedState
        [Ev.detStart 0, Ev.detEnd 400 [], Ev.detEnd 500 []]).1.pendingTimers
      = [1900, 2000] ∧
    (runFlush true startedState [Ev.detStart 0, Ev.detEnd 400 [], Ev.detEnd 500 []]).2
      = [Out.speechStart, Out.speechEnd none, Out.speechEnd none] := by decide

/-- C8, amended: the ref-held pending-end timer is canceled when a
detector speech-start arrives and on explicit stop (so under detector
sequences in which every speech-end is preceded by a speech-start, at
most one timer is ever outstanding); but the speech-end handler itself
schedules a new timer without canceling a previously outstanding one. -/
theorem timer_canceled_on_start_and_stop (s : VADState) (t ft : Nat)
    (hto : s.speechEndTimeout = some ft) (hpt : s.pendingTimers = [ft]) :
    (onSpeechStart t s).1.pendingTimers = [] ∧
    (onSpeechStart t s).1.speechEndTimeout = none ∧
    (stopVAD s).1.pendingTimers = [] ∧
    (stopVAD s).1.speechEndTimeout = none := by
  simp [onSpeechStart, stopVAD, clearEndTimeout, hto, hpt]

/-- Witness for the amended C8: cancellation of the single outstanding
timer due at 1900 ms. -/
theorem timer_canceled_on_start_and_stop_witness :
    (onSpeechStart 1000 (runFrom true startedState
        [Ev.detStart 0, Ev.detEnd 400 []]).1).1.pendingTimers = [] ∧
    (onSpeechStart 1000 (runFrom true startedState
        [Ev.detStart 0, Ev.detEnd 400 []]).1).1.speechEndTimeout = none ∧
    (stopVAD (runFrom true startedState
        [Ev.detStart 0, Ev.detEnd 400 []]).1).1.pendingTimers = [] ∧
    (stopVAD (runFrom true startedState
        [Ev.detStart 0, Ev.detEnd 400 []]).1).1.speechEndTimeout = none :=
  timer_canceled_on_start_and_stop _ 1000 1900 (by decide) (by decide)

/-- C7, counterexample: after a misfired segment (start at 0 ms, detector
end at 100 ms) the derived segmenter state is `Idle`, yet the recorded
speech start time is still set: the misfire path never clears it, so the
claimed "defined if and only if state is not Idle" fails. -/
theorem speech_start_time_persists_in_idle :
    segState (runFrom true startedState [Ev.detStart 0, Ev.detEnd 100 []]).1
      = SegState.Idle ∧
    (runFrom true startedState [Ev.detStart 0, Ev.detEnd 100 []]).1.speechStartTime
      = some 0 := by decide

/-- The half of the C7 invariant the code does maintain: whenever the
speaking flag is set or an end-confirmation timer handle is held, a
speech start time is recorded. -/
def StartTimeInv (s : VADState) : Prop :=
  (s.isSpeaking = true ∨ s.speechEndTimeout ≠ none) → s.speechStartTime ≠ none

/-- `clearEndTimeout` does not touch the recorded speech start time. -/
theorem clearEndTimeout_speechStartTime (s : VADState) :
    (clearEndTimeout s).speechStartTime = s.speechStartTime := by
  cases h : s.speechEndTimeout <;> simp [clearEndTimeout, h]

/-- `clearEndTimeout` always leaves the timeout ref empty. -/
theorem clearEndTimeout_speechEndTimeout (s : VADState) :
    (clearEndTimeout s).speechEndTimeout = none := by
  cases h : s.speechEndTimeout <;> simp [clearEndTimeout, h]

/-- Firing due timers preserves the start-time invariant. -/
theorem startTimeInv_fireDueAux (n t : Nat) (s : VADState) (h : StartTimeInv s) :
    StartTimeInv (fireDueAux n t s).1 := by
  induction n generalizing s with
  | zero => simpa [fireDueAux] using h
  | succ n ih =>
      cases hpt : s.pendingTimers with
      | nil => simpa [fireDueAux, hpt] using h
      | cons ft rest =>
          by_cases hle : ft ≤ t
          · simp only [fireDueAux, hpt, if_pos hle]
            exact ih _ (by simp [StartTimeInv, fireEndTimer])
          · simpa [fireDueAux, hpt, if_neg hle] using h

/-- Flushing remaining timers preserves the start-time invariant. -/
theorem startTimeInv_flushAllAux (n : Nat) (s : VADState) (h : StartTimeInv s) :
    StartTimeInv (flushAllAux n s).1 := by
  induction n generalizing s with
  | zero => simpa [flushAllAux] using h
  | succ n ih =>
      cases hpt : s.pendingTimers with
      | nil => simpa [flushAllAux, hpt] using h
      | cons ft rest =>
          simp only [flushAllAux, hpt]
          exact ih _ (by simp [StartTimeInv, fireEndTimer])

/-- Every event handler preserves the start-time invariant. -/
theorem startTimeInv_handle (supported : Bool) (e : Ev) (s : VADState)
    (h : StartTimeInv s) : StartTimeInv (handle supported e s).1 := by
  cases e with
  | detStart t =>
      intro _
      simp only [handle, onSpeechStart]
      rw [clearEndTimeout_speechStartTime]
      simp
  | detEnd t audio =>
      by_cases hd : speechDuration t s < VAD_MIN_SPEECH_DURATION
      · intro hor
        simp only [handle, onSpeechEnd, if_pos hd] at hor ⊢
        rcases hor with hsp | hto
        · exact absurd hsp (by simp)
        · exact h (Or.inr hto)
      · intro _
        simp only [handle, onSpeechEnd, if_neg hd]
        cases hst : s.speechStartTime with
        | none =>
            exfalso
            exact hd (by simp [speechDuration, hst, VAD_MIN_SPEECH_DURATION])
        | some t0 => simp [hst]
  | detMisfire t =>
      intro hor
      simp only [handle, onVADMisfire] at hor ⊢
      rcases hor with hsp | hto
      · exact absurd hsp (by simp)
      · exact h (Or.inr hto)
  | start t ok =>
      simp only [handle, startVAD]
      by_cases hsup : supported
      · by_cases hin : s.hasInstance
        · simpa [hsup, hin] using h
        · cases ok <;> simpa [hsup, hin, StartTimeInv] using h
      · simpa [hsup] using h
  | stop t =>
      intro hor
      simp only [handle, stopVAD] at hor
      rcases hor with hsp | hto
      · exact absurd hsp (by simp)
      · exact absurd hto (by simp [clearEndTimeout_speechEndTimeout])

/-- Running any event list preserves the start-time invariant. -/
theorem startTimeInv_runFrom (supported : Bool) (evs : List Ev) (s : VADState)
    (h : StartTimeInv s) : StartTimeInv (runFrom supported s evs).1 := by
  induction evs generalizing s with
  | nil => simpa [runFrom] using h
  | cons e rest ih =>
      simp only [runFrom]
      exact ih _ (startTimeInv_handle _ _ _ (startTimeInv_fireDueAux _ _ _ h))

/-- A derived state other than `Idle` means the speaking flag is set or a
timer handle is held. -/
theorem segState_ne_idle (s : VADState) (h : segState s ≠ SegState.Idle) :
    s.isSpeaking = true ∨ s.speechEndTimeout ≠ none := by
  by_cases hto : s.speechEndTimeout.isSome
  · right
    cases hx : s.speechEndTimeout
    · rw [hx] at hto; simp at hto
    · simp
  · left
    by_cases hsp : s.isSpeaking
    · exact hsp
    · exact absurd (by simp [segState, hto, hsp]) h

/-- C7, amended: in every state reachable from the initial one by a run
of events followed by letting remaining timers fire, the derived
segmenter state is a single value (so at most one of `Speaking` and
`PendingEnd` holds), and whenever it is not `Idle` the speech start time
is recorded; the converse direction of the claim fails, since the start
time is cleared only by stop, not on misfire or confirmed end. -/
theorem segmenter_state_invariant (supported : Bool) (evs : List Ev) :
    ¬ (segState (runFlush supported initialState evs).1 = SegState.Speaking ∧
        segState (runFlush supported initialState evs).1 = SegState.PendingEnd) ∧
    (segState (runFlush supported initialState evs).1 ≠ SegState.Idle →
        (runFlush supported initialState evs).1.speechStartTime ≠ none) := by
  constructor
  · rintro ⟨h1, h2⟩
    rw [h1] at h2
    exact SegState.noConfusion h2
  · intro hne
    have hInv : StartTimeInv (runFlush supported initialState evs).1 := by
      have h0 : StartTimeInv initialState := by
        intro hor
        rcases hor with hsp | hto
        · exact absurd hsp (by simp [initialState])
        · exact absurd hto (by simp [initialState])
      have h1 := startTimeInv_runFrom supported evs initialState h0
      simpa [runFlush, flushAll] using
        startTimeInv_flushAllAux
          (runFrom supported initialState evs).1.pendingTimers.length
          (runFrom supported initialState evs).1 h1
    exact hInv (segState_ne_idle _ hne)
